import Mathlib

/-!
Shallow embedding of the share-access gateway of immich-public-proxy
(Express server, files `src/unnamed/part_000` and the two revisions of
`src/app/src/index.ts`).

The gateway's collaborators (backend client `immich`, session cipher,
media streaming adapter, `dayjs` time parsing) live outside the embedded
source; handlers take them as explicit function parameters.  Time is
modelled as an integer number of seconds; "now + 1 hour" is `now + 3600`.
-/

/-- Media type of an asset: `AssetType` from `./types` (`image` | `video`). -/
inductive AssetType where
  | image
  | video
deriving DecidableEq, Repr

/-- One media item of a share: `{ id, type }`; backend-native metadata that
the gateway never reads is omitted. -/
structure Asset where
  id : String
  type : AssetType
deriving DecidableEq, Repr

/-- The `link` object of a resolved share: its ordered asset list. -/
structure SharedLink where
  assets : List Asset
deriving DecidableEq, Repr

/-- Result object of `immich.getShareByKey`: may or may not carry a `link`. -/
structure Share where
  link : Option SharedLink
deriving DecidableEq, Repr

/-- Opaque transport representation of an encrypted credential:
`{ iv, cr }` as produced by `encrypt`. -/
structure EncryptedPair where
  iv : String
  cr : String
deriving DecidableEq, Repr

/-- JSON credential payload recovered by `decrypt` + `JSON.parse` in
`decodeCookie`.  A field holds `none` when the JavaScript property access
yields `undefined` (absent field, or a non-object payload). -/
structure Payload where
  password : Option String
  expires : Option String
deriving DecidableEq, Repr

/-- SessionCredential built by the unlock endpoint before serialisation:
`{ password: req.body.password, expires: dayjs().add(1, 'hour').format() }`,
with the expiry timestamp kept as seconds. -/
structure Credential where
  password : Option String
  expires : Int
deriving DecidableEq, Repr

/-- JavaScript whitespace accepted by `parseInt` before the number. -/
def isJsWs (c : Char) : Bool :=
  c == ' ' || c == '\t' || c == '\n' || c == '\r' || c == '\x0b' || c == '\x0c'

/-- Value of a decimal digit character, `none` for any other character. -/
def decDigitVal (c : Char) : Option Nat :=
  if 48 ≤ c.toNat && c.toNat ≤ 57 then some (c.toNat - 48) else none

/-- Value of a hexadecimal digit character, `none` for any other character. -/
def hexDigitVal (c : Char) : Option Nat :=
  if 48 ≤ c.toNat && c.toNat ≤ 57 then some (c.toNat - 48)
  else if 97 ≤ c.toNat && c.toNat ≤ 102 then some (c.toNat - 97 + 10)
  else if 65 ≤ c.toNat && c.toNat ≤ 70 then some (c.toNat - 65 + 10)
  else none

/-- Longest leading run of digits of the given digit alphabet. -/
def takeDigits (dv : Char → Option Nat) : List Char → List Nat
  | [] => []
  | c :: cs =>
    match dv c with
    | some d => d :: takeDigits dv cs
    | none => []

/-- Numeric value of a digit list in the given radix. -/
def digitsVal (radix : Nat) (ds : List Nat) : Nat :=
  ds.foldl (fun a d => a * radix + d) 0

/-- JavaScript `parseInt(x)` for `x` a string or `undefined` (`none`):
skip leading whitespace, optional sign, radix 16 after a `0x`/`0X` marker
and 10 otherwise, longest leading digit run, ignoring trailing characters;
`none` models `NaN`. -/
def parseIntJS : Option String → Option Int
  | none => none
  | some s =>
    let cs := s.toList.dropWhile isJsWs
    let sc : Int × List Char :=
      match cs with
      | '-' :: r => (-1, r)
      | '+' :: r => (1, r)
      | _ => (1, cs)
    let rc : Nat × List Char :=
      match sc.2 with
      | '0' :: 'x' :: r => (16, r)
      | '0' :: 'X' :: r => (16, r)
      | _ => (10, sc.2)
    let dv := if rc.1 == 16 then hexDigitVal else decDigitVal
    let ds := takeDigits dv rc.2
    if ds.isEmpty then none else some (sc.1 * (digitsVal rc.1 ds : Int))

/-- JavaScript `parseInt(x) || d`: the default replaces `NaN` and `0`
(the falsy numbers), and nothing else. -/
def orDefault (v : Option Int) (d : Int) : Int :=
  match v with
  | none => d
  | some n => if n = 0 then d else n

/-- `const page = parseInt(req.query.page as string) || 1`. -/
def pageOf (q : Option String) : Int :=
  orDefault (parseIntJS q) 1

/-- `const pageSize = parseInt(req.query.pageSize as string) || 20`. -/
def pageSizeOf (q : Option String) : Int :=
  orDefault (parseIntJS q) 20

/-- Index normalisation of `Array.prototype.slice`: a negative index is
relative to the end of the array (clamped below at 0), a non-negative one
is clamped above at the length. -/
def jsSliceIdx (len : Nat) (i : Int) : Nat :=
  if i < 0 then ((len : Int) + i).toNat else min i.toNat len

/-- JavaScript `l.slice(start, stop)`. -/
def jsSlice (l : List α) (start stop : Int) : List α :=
  (l.take (jsSliceIdx l.length stop)).drop (jsSliceIdx l.length start)

/-- The slice the specification describes: the elements whose (natural)
index lies in the half-open interval `[start, stop)`.  Since list indices
are non-negative, this is `(take stop).drop start` after clamping the
bounds below at 0. -/
def specSlice (l : List α) (start stop : Int) : List α :=
  (l.take stop.toNat).drop start.toNat

/-- Fixed external base URL of the listing projection
(`const base = 'https://i.techie.pics'`). -/
def listingBase : String := "https://i.techie.pics"

/-- Gallery projection of one asset:
`{ id, thumbUrl, previewUrl, originalUrl }` derived from the fixed base
URL, the share key and the asset id. -/
structure MediaItem where
  id : String
  thumbUrl : String
  previewUrl : String
  originalUrl : String
deriving DecidableEq, Repr

/-- The `media` element built for one asset by the listing handler. -/
def projAsset (shareKey : String) (a : Asset) : MediaItem :=
  { id := a.id
    thumbUrl := listingBase ++ "/share/photo/" ++ shareKey ++ "/" ++ a.id ++ "/thumbnail"
    previewUrl := listingBase ++ "/share/photo/" ++ shareKey ++ "/" ++ a.id ++ "/preview"
    originalUrl := listingBase ++ "/share/photo/" ++ shareKey ++ "/" ++ a.id ++ "/original" }

/-- Observable outcome of `GET /share/:id/api`: either the 404 JSON
envelope `{ error: 'Invalid or expired share key' }`, or a 200 JSON body
`{ media, page, pageSize, total }`. -/
inductive ListingResult where
  | err404
  | ok (media : List MediaItem) (page pageSize : Int) (total : Nat)
deriving DecidableEq, Repr

/-- Handler of `GET /share/:id/api` (`src/app/src/index.ts`, canonical
revision).  `getShareByKey` is the backend client; an `Except.error`
result models a thrown promise rejection, caught by the handler's
`try`/`catch` and mapped to the same 404 envelope. -/
def listingHandler (getShareByKey : String → Option String → Except Unit (Option Share))
    (shareKey : String) (pageQ pageSizeQ : Option String) : ListingResult :=
  match getShareByKey shareKey (some "") with
  | Except.error _ => ListingResult.err404
  | Except.ok share =>
    match share.bind Share.link with
    | none => ListingResult.err404
    | some link =>
      if link.assets.length == 0 then ListingResult.err404
      else
        let page := pageOf pageQ
        let pageSize := pageSizeOf pageSizeQ
        let start := (page - 1) * pageSize
        let pagedAssets := jsSlice link.assets start (start + pageSize)
        ListingResult.ok (pagedAssets.map (projAsset shareKey)) page pageSize
          link.assets.length

/-- Observable outcome of `GET /share/:type(photo|video)/:key/:id/:size?`:
a 404 via `respondToInvalidRequest`, a hand-off of the resolved asset view
to `render.assetBuffer` (with the requested size variant and the `Range`
header), or no response written at all. -/
inductive StreamResult where
  | respond404
  | stream (asset : Asset) (size : Option String) (range : String)
  | hang
deriving DecidableEq, Repr

/-- Truthiness of `req.params.size && !Object.values(ImageSize).includes(size)`:
the size check fires only for a present, non-empty size segment that is not
one of the enumerated size values. -/
def sizeInvalid (sizes : List String) : Option String → Bool
  | some s => s != "" && !(sizes.contains s)
  | none => false

/-- Handler of the asset-streaming route in `src/app/src/index.ts` (both
revisions agree).  `isKey`/`isId` are the backend client's syntactic
validators, `sizes` the `ImageSize` enumeration, `getShareByKey` the
backend resolution.  The second component records whether the backend was
consulted (`immich.getShareByKey` reached). -/
def assetHandler (isKey isId : String → Bool) (sizes : List String)
    (getShareByKey : String → Option String → Option Share)
    (routeType key id : String) (size : Option String)
    (password : Option String) (range : String) : StreamResult × Bool :=
  if !(isKey key && isId id) then (StreamResult.respond404, false)
  else if sizeInvalid sizes size then (StreamResult.respond404, false)
  else
    match (getShareByKey key password).bind Share.link with
    | some sharedLink =>
      if sharedLink.assets.length != 0 then
        match sharedLink.assets.find? (fun x => x.id == id) with
        | some asset =>
          (StreamResult.stream
            { asset with
              type := if routeType == "video" then AssetType.video else AssetType.image }
            size range, true)
        | none => (StreamResult.respond404, true)
      else (StreamResult.respond404, true)
    | none => (StreamResult.respond404, true)

/-- Handler of the asset-streaming route in `src/unnamed/part_000`: the
same code except that its `if (asset) { ... }` has no `else` branch, so a
share whose asset list is non-empty but holds no asset with the requested
id produces no response at all. -/
def assetHandlerPart000 (isKey isId : String → Bool) (sizes : List String)
    (getShareByKey : String → Option String → Option Share)
    (routeType key id : String) (size : Option String)
    (password : Option String) (range : String) : StreamResult × Bool :=
  if !(isKey key && isId id) then (StreamResult.respond404, false)
  else if sizeInvalid sizes size then (StreamResult.respond404, false)
  else
    match (getShareByKey key password).bind Share.link with
    | some sharedLink =>
      if sharedLink.assets.length != 0 then
        match sharedLink.assets.find? (fun x => x.id == id) with
        | some asset =>
          (StreamResult.stream
            { asset with
              type := if routeType == "video" then AssetType.video else AssetType.image }
            size range, true)
        | none => (StreamResult.hang, true)
      else (StreamResult.respond404, true)
    | none => (StreamResult.respond404, true)

/-- Outcome of the `decodeCookie` middleware: whether `next()` was
reached and which password, if any, got attached to the request. -/
structure GateOutcome where
  proceeded : Bool
  password : Option String
deriving DecidableEq, Repr

/-- Body of the `try` block of `decodeCookie`: `decryptParse` is
`JSON.parse ∘ decrypt` (an `Except.error` models a thrown exception),
`parseTime` is `dayjs` parsing (`none` models an invalid date, whose
comparison with now is always false), `now` the current time.  The
payload's `expires` field must be truthy (present and non-empty) and
parse to a strictly future instant for `payload.password` to be
attached. -/
def decodeCookieTry (decryptParse : EncryptedPair → Except Unit Payload)
    (parseTime : String → Option Int) (now : Int)
    (pair : EncryptedPair) : Except Unit (Option String) :=
  match decryptParse pair with
  | Except.error e => Except.error e
  | Except.ok payload =>
    match payload.expires with
    | some e =>
      if e != "" then
        match parseTime e with
        | some t =>
          if now < t then Except.ok payload.password else Except.ok none
        | none => Except.ok none
      else Except.ok none
    | none => Except.ok none

/-- The slot lookup `req.session?.[shareKey]`: `sess` is `req.session`
(absent, or a mapping from share key to stored slot). -/
def sessionSlot (sess : Option (String → Option EncryptedPair))
    (shareKey : String) : Option EncryptedPair :=
  match sess with
  | some store => store shareKey
  | none => none

/-- The whole `decodeCookie` middleware, `shareKey` being
`req.params.key`.  An `Except.error` result would be an exception
escaping the middleware; the `catch (e) {}` maps every `try`-block
failure to proceeding with no password. -/
def decodeCookieMw (sess : Option (String → Option EncryptedPair))
    (decryptParse : EncryptedPair → Except Unit Payload)
    (parseTime : String → Option Int) (now : Int)
    (shareKey : String) : Except Unit GateOutcome :=
  match sessionSlot sess shareKey with
  | some pair =>
    if shareKey != "" && pair.iv != "" && pair.cr != "" then
      match decodeCookieTry decryptParse parseTime now pair with
      | Except.ok r => Except.ok ⟨true, r⟩
      | Except.error _ => Except.ok ⟨true, none⟩
    else Except.ok ⟨true, none⟩
  | none => Except.ok ⟨true, none⟩

/-- The password the middleware attaches (`req.password` after
`decodeCookie`), `none` when it proceeds unauthenticated. -/
def decodeCookie (sess : Option (String → Option EncryptedPair))
    (decryptParse : EncryptedPair → Except Unit Payload)
    (parseTime : String → Option Int) (now : Int)
    (shareKey : String) : Option String :=
  match decodeCookieMw sess decryptParse parseTime now shareKey with
  | Except.ok o => o.password
  | Except.error _ => none

/-- The happy path of the credential recovery: a stored slot with truthy
`iv` and `cr` under a truthy share key, decrypting and parsing to a
payload whose truthy `expires` field parses to a strictly future
instant. -/
def credSuccess (sess : Option (String → Option EncryptedPair))
    (decryptParse : EncryptedPair → Except Unit Payload)
    (parseTime : String → Option Int) (now : Int)
    (shareKey : String) : Prop :=
  ∃ store pair payload e t,
    sess = some store ∧ store shareKey = some pair ∧
    shareKey ≠ "" ∧ pair.iv ≠ "" ∧ pair.cr ≠ "" ∧
    decryptParse pair = Except.ok payload ∧
    payload.expires = some e ∧ e ≠ "" ∧
    parseTime e = some t ∧ now < t

/-- Handler of `POST /share/unlock`.  `sess` is `req.session`, `bodyKey`
and `bodyPassword` the JSON body fields, `encryptCred` the composition
`encrypt ∘ JSON.stringify` over the credential object, `now` the current
time in seconds.  Returns the updated session store and the response
status (`res.send()` → 200, always). -/
def unlock (sess : Option (String → Option EncryptedPair))
    (bodyKey bodyPassword : Option String)
    (encryptCred : Credential → EncryptedPair) (now : Int) :
    Option (String → Option EncryptedPair) × Nat :=
  match sess, bodyKey with
  | some store, some k =>
    if k != "" then
      (some (fun k' =>
        if k' == k then some (encryptCred ⟨bodyPassword, now + 3600⟩) else store k'),
       200)
    else (some store, 200)
  | _, _ => (sess, 200)

/-- Taking `min b len` elements of a list of length `len` is taking `b`. -/
theorem take_min_length (l : List α) (b : Nat) : l.take (min b l.length) = l.take b := by
  rcases le_total b l.length with h | h
  · rw [min_eq_left h]
  · rw [min_eq_right h, List.take_length, List.take_of_length_le h]

/-- Dropping `min a len` elements of a list no longer than `len` is
dropping `a`. -/
theorem drop_min_length (m : List α) (len a : Nat) (hm : m.length ≤ len) :
    m.drop (min a len) = m.drop a := by
  rcases le_total a len with h | h
  · rw [min_eq_left h]
  · rw [min_eq_right h, List.drop_eq_nil_of_le hm, List.drop_eq_nil_of_le (hm.trans h)]

/-- For non-negative bounds, the JavaScript slice agrees with the
index-interval slice of the specification. -/
theorem jsSlice_eq_specSlice (l : List α) (start stop : Int)
    (h1 : 0 ≤ start) (h2 : 0 ≤ stop) :
    jsSlice l start stop = specSlice l start stop := by
  unfold jsSlice specSlice jsSliceIdx
  rw [if_neg (not_lt.mpr h2), if_neg (not_lt.mpr h1), take_min_length,
    drop_min_length _ l.length _ (l.length_take _ ▸ min_le_right _ _)]

/-- Elements of a JavaScript slice are elements of the list. -/
theorem mem_of_mem_jsSlice {a : α} {l : List α} {start stop : Int}
    (h : a ∈ jsSlice l start stop) : a ∈ l :=
  List.take_subset _ _ (List.drop_subset _ _ h)

/-- C6: for every (key, id) pair failing `isKey` or `isId`, and for every
request whose size path segment is present (a non-empty string) but not
one of the enumerated size values, the asset-streaming route of
`src/unnamed/part_000` responds 404 without consulting the backend
(second component `false`), for every backend; validation short-circuits
on the first failure. -/
theorem streaming_validation_short_circuits
    (isKey isId : String → Bool) (sizes : List String)
    (g : String → Option String → Option Share)
    (routeType key id : String) (size : Option String)
    (pw : Option String) (range : String) :
    (isKey key = false ∨ isId id = false →
      assetHandlerPart000 isKey isId sizes g routeType key id size pw range
        = (StreamResult.respond404, false)) ∧
    (∀ s, size = some s → s ≠ "" → sizes.contains s = false →
      assetHandlerPart000 isKey isId sizes g routeType key id size pw range
        = (StreamResult.respond404, false)) := by
  constructor
  · intro h
    have hc : (isKey key && isId id) = false := by
      rcases h with h | h <;> simp [h]
    unfold assetHandlerPart000
    simp [hc]
  · intro s hs hne hct
    unfold assetHandlerPart000
    cases hb : (isKey key && isId id) with
    | false => simp [hb]
    | true =>
      have hsz : sizeInvalid sizes size = true := by
        subst hs
        show (s != "" && !sizes.contains s) = true
        rw [hct]
        simp [bne_iff_ne, hne]
      simp [hb, hsz]

/-- C6 witness: a concrete request with a failing key validator gets the
404 with no backend call. -/
theorem streaming_validation_short_circuits_witness :
    assetHandlerPart000 (fun _ => false) (fun _ => true) []
      (fun _ _ => none) "photo" "k" "i" none none ""
      = (StreamResult.respond404, false) :=
  (streaming_validation_short_circuits (fun _ => false) (fun _ => true) []
    (fun _ _ => none) "photo" "k" "i" none none "").1 (Or.inl rfl)

/-- C1: over the share `{ assets: [{id: "a"}] }` stored under key `"KEY"`,
requesting id `"b"` makes the `src/unnamed/part_000` handler write no
response at all (its inner `if (asset)` has no `else` branch), while both
`src/app/src/index.ts` revisions respond the same 404 as a wholly invalid
share key does. -/
theorem part000_unmatched_id_sends_no_response :
    (assetHandlerPart000 (fun k => k == "KEY") (fun _ => true)
        ["thumbnail", "preview", "original"]
        (fun k _ => if k == "KEY" then some ⟨some ⟨[⟨"a", AssetType.image⟩]⟩⟩ else none)
        "photo" "KEY" "b" none none "").1 = StreamResult.hang ∧
    (assetHandler (fun k => k == "KEY") (fun _ => true)
        ["thumbnail", "preview", "original"]
        (fun k _ => if k == "KEY" then some ⟨some ⟨[⟨"a", AssetType.image⟩]⟩⟩ else none)
        "photo" "KEY" "b" none none "").1 = StreamResult.respond404 ∧
    (assetHandler (fun k => k == "KEY") (fun _ => true)
        ["thumbnail", "preview", "original"]
        (fun k _ => if k == "KEY" then some ⟨some ⟨[⟨"a", AssetType.image⟩]⟩⟩ else none)
        "photo" "WRONG" "b" none none "").1 = StreamResult.respond404 := by
  exact ⟨by decide, by decide, by decide⟩

/-- Storage effect of the unlock endpoint when a session store and a
truthy body key are present. -/
theorem unlock_store_update (store : String → Option EncryptedPair) (k : String)
    (pw : Option String) (encryptCred : Credential → EncryptedPair) (now : Int)
    (hk : k ≠ "") :
    ∃ store', (unlock (some store) (some k) pw encryptCred now).1 = some store' ∧
      store' k = some (encryptCred ⟨pw, now + 3600⟩) := by
  unfold unlock
  have hkb : (k != "") = true := by simp [bne_iff_ne, hk]
  simp only [hkb, if_true]
  exact ⟨_, rfl, by simp⟩

/-- C8: the unlock endpoint always responds 200, and whenever a session
store and a truthy body key are present it stores, under that key, the
encrypted credential whose expiry is now plus one hour (3600 seconds). -/
theorem unlock_stores_credential_and_always_succeeds
    (sess : Option (String → Option EncryptedPair))
    (bodyKey bodyPassword : Option String)
    (encryptCred : Credential → EncryptedPair) (now : Int) :
    (unlock sess bodyKey bodyPassword encryptCred now).2 = 200 ∧
    (∀ store k, sess = some store → bodyKey = some k → k ≠ "" →
      ∃ store', (unlock sess bodyKey bodyPassword encryptCred now).1 = some store' ∧
        store' k = some (encryptCred ⟨bodyPassword, now + 3600⟩)) := by
  constructor
  · unfold unlock
    rcases sess with _ | store <;> rcases bodyKey with _ | k <;> simp
    split <;> rfl
  · rintro store k rfl rfl hk
    exact unlock_store_update store k bodyPassword encryptCred now hk

/-- C8 witness: unlocking key `"K"` with password `"p"` at time 0 stores
the credential expiring at 3600 and responds 200. -/
theorem unlock_stores_credential_and_always_succeeds_witness :
    (unlock (some fun _ => none) (some "K") (some "p")
        (fun _ => ⟨"iv", "cr"⟩) 0).2 = 200 ∧
    ∃ store', (unlock (some fun _ => none) (some "K") (some "p")
        (fun _ => ⟨"iv", "cr"⟩) 0).1 = some store' ∧
      store' "K" = some ((fun _ => (⟨"iv", "cr"⟩ : EncryptedPair)) (⟨some "p", 0 + 3600⟩ : Credential)) :=
  ⟨(unlock_stores_credential_and_always_succeeds (some fun _ => none) (some "K")
      (some "p") (fun _ => ⟨"iv", "cr"⟩) 0).1,
   (unlock_stores_credential_and_always_succeeds (some fun _ => none) (some "K")
      (some "p") (fun _ => ⟨"iv", "cr"⟩) 0).2 _ "K" rfl rfl (by decide)⟩

/-- C10: the unlock endpoint performs no syntactic key validation: for any
non-empty key rejected by `isKey`, a credential is still stored under it,
while the asset-streaming route rejects every request under that key with
404 before consulting the backend. -/
theorem unlock_skips_key_validation
    (store : String → Option EncryptedPair) (k : String) (pw : Option String)
    (encryptCred : Credential → EncryptedPair) (now : Int)
    (isKey : String → Bool) (hk : k ≠ "") (hinv : isKey k = false) :
    (∃ store', (unlock (some store) (some k) pw encryptCred now).1 = some store' ∧
      store' k = some (encryptCred ⟨pw, now + 3600⟩)) ∧
    (∀ isId sizes g routeType id size pw' range,
      assetHandlerPart000 isKey isId sizes g routeType k id size pw' range
        = (StreamResult.respond404, false)) := by
  constructor
  · exact unlock_store_update store k pw encryptCred now hk
  · intro isId sizes g routeType id size pw' range
    have hc : (isKey k && isId id) = false := by simp [hinv]
    unfold assetHandlerPart000
    simp [hc]

/-- Inversion of a password attachment in the `try` block: it requires a
successful decrypt-and-parse, a present password field carrying the
attached value, and a truthy `expires` field parsing to a strictly future
instant. -/
theorem decodeCookieTry_some_inv
    {dp : EncryptedPair → Except Unit Payload} {pt : String → Option Int}
    {now : Int} {pair : EncryptedPair} {p : String}
    (h : decodeCookieTry dp pt now pair = Except.ok (some p)) :
    ∃ payload e t, dp pair = Except.ok payload ∧ payload.password = some p ∧
      payload.expires = some e ∧ e ≠ "" ∧ pt e = some t ∧ now < t := by
  unfold decodeCookieTry at h
  split at h
  next => simp at h
  next payload hdp =>
    split at h
    next e hex =>
      split at h
      next hne =>
        split at h
        next t hpt =>
          split at h
          next hlt =>
            exact ⟨payload, e, t, hdp, by simpa using h, hex,
              by simpa [bne_iff_ne] using hne, hpt, hlt⟩
          next => simp at h
        next => simp at h
      next => simp at h
    next => simp at h

/-- Inversion of a password attachment by the whole middleware: the slot
lookup succeeded, the truthiness guard passed and the `try` block
returned the attached password. -/
theorem decodeCookie_some_inv
    {sess : Option (String → Option EncryptedPair)}
    {dp : EncryptedPair → Except Unit Payload} {pt : String → Option Int}
    {now : Int} {shareKey : String} {p : String}
    (h : decodeCookie sess dp pt now shareKey = some p) :
    ∃ pair, sessionSlot sess shareKey = some pair ∧
      (shareKey != "" && pair.iv != "" && pair.cr != "") = true ∧
      decodeCookieTry dp pt now pair = Except.ok (some p) := by
  unfold decodeCookie decodeCookieMw at h
  split at h
  next o heq =>
    split at heq
    next pair hslot =>
      split at heq
      next hcond =>
        split at heq
        next r htry =>
          obtain rfl : GateOutcome.mk true r = o := by simpa using heq
          exact ⟨pair, hslot, hcond, by rw [htry]; exact congrArg Except.ok h⟩
        next htry =>
          obtain rfl : GateOutcome.mk true none = o := by simpa using heq
          simp at h
      next =>
        obtain rfl : GateOutcome.mk true none = o := by simpa using heq
        simp at h
    next hslot =>
      obtain rfl : GateOutcome.mk true none = o := by simpa using heq
      simp at h
  next a heq =>
    split at heq
    next pair hslot =>
      split at heq
      next => split at heq <;> simp at heq
      next => simp at heq
    next => simp at heq

/-- C2: a password is attached by `decodeCookie` only when the stored
pair decrypts and parses to a payload carrying both a `password` field
(whose value is what gets attached) and a truthy `expires` field that
parses to an instant strictly after the current time. -/
theorem gate_attaches_only_valid_credential
    (sess : Option (String → Option EncryptedPair))
    (dp : EncryptedPair → Except Unit Payload) (pt : String → Option Int)
    (now : Int) (shareKey : String) (p : String)
    (h : decodeCookie sess dp pt now shareKey = some p) :
    ∃ store pair payload e t,
      sess = some store ∧ store shareKey = some pair ∧ shareKey ≠ "" ∧
      pair.iv ≠ "" ∧ pair.cr ≠ "" ∧
      dp pair = Except.ok payload ∧ payload.password = some p ∧
      payload.expires = some e ∧ e ≠ "" ∧ pt e = some t ∧ now < t := by
  obtain ⟨pair, hslot, hcond, htry⟩ := decodeCookie_some_inv h
  obtain ⟨payload, e, t, h1, h2, h3, h4, h5, h6⟩ :=
    decodeCookieTry_some_inv htry
  have hc := hcond
  simp only [Bool.and_eq_true, bne_iff_ne, ne_eq] at hc
  cases sess with
  | none => simp [sessionSlot] at hslot
  | some store =>
    exact ⟨store, pair, payload, e, t, rfl,
      by simpa [sessionSlot] using hslot, hc.1.1, hc.1.2, hc.2,
      h1, h2, h3, h4, h5, h6⟩

/-- C2 witness: a store holding a decryptable, unexpired credential for
key `"K"` gets its password attached, and the theorem recovers the
credential's fields. -/
theorem gate_attaches_only_valid_credential_witness :
    ∃ (store : String → Option EncryptedPair) (pair : EncryptedPair)
      (payload : Payload) (e : String) (t : Int),
      (some fun _ : String => some (⟨"iv", "cr"⟩ : EncryptedPair))
        = some store ∧
      store "K" = some pair ∧ ("K" : String) ≠ "" ∧
      pair.iv ≠ "" ∧ pair.cr ≠ "" ∧
      (Except.ok (⟨some "pw", some "e"⟩ : Payload) : Except Unit Payload)
        = Except.ok payload ∧
      payload.password = some "pw" ∧
      payload.expires = some e ∧ e ≠ "" ∧
      some (10 : Int) = some t ∧ (0 : Int) < t :=
  gate_attaches_only_valid_credential
    (some fun _ : String => some ⟨"iv", "cr"⟩)
    (fun _ : EncryptedPair => Except.ok ⟨some "pw", some "e"⟩)
    (fun _ : String => some 10) 0 "K" "pw" (by decide)

/-- C7: the password-gate middleware always reaches `next()` and never
returns an exception, and whenever the credential-recovery happy path
fails at any point (absent slot, failed decrypt or parse, missing or
falsy `expires`, unparseable or non-future expiry) it proceeds with no
password attached. -/
theorem gate_never_throws_and_swallows_failures
    (sess : Option (String → Option EncryptedPair))
    (dp : EncryptedPair → Except Unit Payload) (pt : String → Option Int)
    (now : Int) (shareKey : String) :
    (∃ o : GateOutcome, decodeCookieMw sess dp pt now shareKey = Except.ok o ∧
      o.proceeded = true) ∧
    (¬ credSuccess sess dp pt now shareKey →
      decodeCookieMw sess dp pt now shareKey = Except.ok ⟨true, none⟩) := by
  constructor
  · unfold decodeCookieMw
    cases hslot : sessionSlot sess shareKey with
    | none => exact ⟨⟨true, none⟩, rfl, rfl⟩
    | some pair =>
      cases hcond : (shareKey != "" && pair.iv != "" && pair.cr != "") with
      | false => exact ⟨⟨true, none⟩, by simp [hcond], rfl⟩
      | true =>
        cases htry : decodeCookieTry dp pt now pair with
        | error e => exact ⟨⟨true, none⟩, by simp [hcond, htry], rfl⟩
        | ok r => exact ⟨⟨true, r⟩, by simp [hcond, htry], rfl⟩
  · intro hfail
    unfold decodeCookieMw
    cases hslot : sessionSlot sess shareKey with
    | none => rfl
    | some pair =>
      cases hcond : (shareKey != "" && pair.iv != "" && pair.cr != "") with
      | false => simp [hcond]
      | true =>
        cases htry : decodeCookieTry dp pt now pair with
        | error e => simp [hcond, htry]
        | ok r =>
          cases r with
          | none => simp [hcond, htry]
          | some p =>
            exfalso
            apply hfail
            obtain ⟨payload, e, t, h1, h2, h3, h4, h5, h6⟩ :=
              decodeCookieTry_some_inv htry
            have hc := hcond
            simp only [Bool.and_eq_true, bne_iff_ne, ne_eq] at hc
            cases sess with
            | none => simp [sessionSlot] at hslot
            | some store =>
              exact ⟨store, pair, payload, e, t, rfl,
                by simpa [sessionSlot] using hslot, hc.1.1, hc.1.2, hc.2,
                h1, h3, h4, h5, h6⟩

/-- C7 witness: with no session store at all (and a decrypt that would
always throw), the middleware proceeds with no password and no
exception. -/
theorem gate_never_throws_and_swallows_failures_witness :
    decodeCookieMw none (fun _ => Except.error ()) (fun _ => none) 0 "k"
      = Except.ok ⟨true, none⟩ :=
  (gate_never_throws_and_swallows_failures none (fun _ => Except.error ())
    (fun _ => none) 0 "k").2
    (by rintro ⟨store, pair, payload, e, t, hs, -⟩; exact Option.noConfusion hs)

/-- Inversion of a successful hand-off to the streaming adapter by the
`part_000` handler: validation passed and the share resolved to a
non-empty asset list holding an asset with the requested id, whose
per-request view (with route-derived type) is what gets streamed. -/
theorem assetHandlerPart000_stream_inv
    {isKey isId : String → Bool} {sizes : List String}
    {g : String → Option String → Option Share}
    {routeType key id : String} {size : Option String}
    {pw : Option String} {range : String} {a : Asset} {s : Option String}
    {r : String}
    (h : (assetHandlerPart000 isKey isId sizes g routeType key id size pw range).1
      = StreamResult.stream a s r) :
    (isKey key && isId id) = true ∧ sizeInvalid sizes size = false ∧
    ∃ link asset, (g key pw).bind Share.link = some link ∧
      (link.assets.length != 0) = true ∧
      link.assets.find? (fun x => x.id == id) = some asset ∧
      a = { asset with
        type := if routeType == "video" then AssetType.video else AssetType.image } ∧
      s = size ∧ r = range := by
  unfold assetHandlerPart000 at h
  split at h
  next => simp at h
  next hval =>
    split at h
    next => simp at h
    next hsz =>
      split at h
      next link hlink =>
        split at h
        next hlen =>
          split at h
          next asset hfind =>
            simp only [StreamResult.stream.injEq] at h
            exact ⟨by simpa using hval, by simpa using hsz,
              link, asset, hlink, hlen, hfind, h.1.symm, h.2.1.symm, h.2.2.symm⟩
          next => simp at h
        next => simp at h
      next => simp at h

/-- Evaluation of the `part_000` handler on the success path. -/
theorem assetHandlerPart000_stream_eval
    {isKey isId : String → Bool} {sizes : List String}
    {g : String → Option String → Option Share}
    {routeType key id : String} {size : Option String}
    {pw : Option String} {range : String} {link : SharedLink} {asset : Asset}
    (hval : (isKey key && isId id) = true) (hsz : sizeInvalid sizes size = false)
    (hlink : (g key pw).bind Share.link = some link)
    (hlen : (link.assets.length != 0) = true)
    (hfind : link.assets.find? (fun x => x.id == id) = some asset) :
    assetHandlerPart000 isKey isId sizes g routeType key id size pw range
      = (StreamResult.stream
          { asset with
            type := if routeType == "video" then AssetType.video else AssetType.image }
          size range, true) := by
  unfold assetHandlerPart000
  rw [hlink]
  simp [hval, hsz, hlen, hfind]

/-- C9: whenever the streaming route hands an asset to the adapter, the
asset view's type is `video` exactly when the route discriminator is
`"video"` and `image` otherwise; in particular a successful photo-route
request implies the video-route request for the same key and id streams
the same asset with the opposite type. -/
theorem resolved_media_type_follows_route
    (isKey isId : String → Bool) (sizes : List String)
    (g : String → Option String → Option Share)
    (routeType key id : String) (size : Option String)
    (pw : Option String) (range : String) :
    (∀ a s r,
      (assetHandlerPart000 isKey isId sizes g routeType key id size pw range).1
        = StreamResult.stream a s r →
      a.type = if routeType == "video" then AssetType.video else AssetType.image) ∧
    (∀ a s r,
      (assetHandlerPart000 isKey isId sizes g "photo" key id size pw range).1
        = StreamResult.stream a s r →
      ∃ a', (assetHandlerPart000 isKey isId sizes g "video" key id size pw range).1
          = StreamResult.stream a' s r ∧
        a'.id = a.id ∧ a.type = AssetType.image ∧ a'.type = AssetType.video ∧
        a.type ≠ a'.type) := by
  constructor
  · intro a s r h
    obtain ⟨-, -, link, asset, -, -, -, ha, -, -⟩ := assetHandlerPart000_stream_inv h
    subst ha
    rfl
  · intro a s r h
    obtain ⟨hval, hsz, link, asset, hlink, hlen, hfind, ha, hs, hr⟩ :=
      assetHandlerPart000_stream_inv h
    subst ha; subst hs; subst hr
    have hv := @assetHandlerPart000_stream_eval isKey isId sizes g "video" key id
      s pw r link asset hval hsz hlink hlen hfind
    refine ⟨{ asset with type := AssetType.video }, ?_, by simp, by simp, rfl, by simp⟩
    rw [hv]
    simp

/-- C9 witness: over a one-asset share, the photo route streams the asset
as an image and the video route streams it as a video. -/
theorem resolved_media_type_follows_route_witness :
    ∃ a', (assetHandlerPart000 (fun _ => true) (fun _ => true) []
        (fun _ _ => some ⟨some ⟨[⟨"a", AssetType.image⟩]⟩⟩)
        "video" "K" "a" none none "").1
      = StreamResult.stream a' none "" ∧
    a'.id = (⟨"a", AssetType.image⟩ : Asset).id ∧
    (⟨"a", AssetType.image⟩ : Asset).type = AssetType.image ∧
    a'.type = AssetType.video ∧
    (⟨"a", AssetType.image⟩ : Asset).type ≠ a'.type :=
  (resolved_media_type_follows_route (fun _ => true) (fun _ => true) []
    (fun _ _ => some ⟨some ⟨[⟨"a", AssetType.image⟩]⟩⟩)
    "photo" "K" "a" none none "").2 ⟨"a", AssetType.image⟩ none "" (by decide)

/-- C3 counterexample: the claim says a non-positive input falls back to
the default, but `parseInt(x) || d` only replaces `NaN` and `0`: the
input `"-5"` yields page `-5` (and pageSize `-7` for `"-7"`), not the
defaults. -/
theorem pagination_negative_input_not_clamped :
    pageOf (some "-5") = -5 ∧ ¬ (0 < pageOf (some "-5")) ∧
    pageSizeOf (some "-7") = -7 ∧ ¬ (0 < pageSizeOf (some "-7")) := by
  exact ⟨by decide, by decide, by decide, by decide⟩

/-- C3 amended: `page` and `pageSize` fall back to their defaults (1 and
20) exactly when the input is missing, non-numeric, or parses to 0; every
other parsed value — including negative integers — is used as-is, and
every input produces a value (no error response). -/
theorem pagination_defaults_amended (pq psq : Option String) :
    (parseIntJS pq = none ∨ parseIntJS pq = some 0 → pageOf pq = 1) ∧
    (parseIntJS psq = none ∨ parseIntJS psq = some 0 → pageSizeOf psq = 20) ∧
    (∀ n, parseIntJS pq = some n → n ≠ 0 → pageOf pq = n) ∧
    (∀ n, parseIntJS psq = some n → n ≠ 0 → pageSizeOf psq = n) := by
  refine ⟨?_, ?_, ?_, ?_⟩
  · rintro (h | h) <;> simp [pageOf, orDefault, h]
  · rintro (h | h) <;> simp [pageSizeOf, orDefault, h]
  · intro n h hn; simp [pageOf, orDefault, h, hn]
  · intro n h hn; simp [pageSizeOf, orDefault, h, hn]

/-- C3 amended witness: a non-numeric page and a missing pageSize both
fall back to their defaults. -/
theorem pagination_defaults_amended_witness :
    pageOf (some "abc") = 1 ∧ pageSizeOf none = 20 :=
  ⟨(pagination_defaults_amended (some "abc") none).1 (Or.inl (by decide)),
   (pagination_defaults_amended (some "abc") none).2.1 (Or.inl rfl)⟩

/-- C4 counterexample: with three assets and query `page=-1&pageSize=1`
the computed start index is `-2`, JavaScript slice semantics count it
from the end of the array and return the middle asset, while the
index-interval slice `[-2, -1)` of the claim holds no element — so the
returned `media` differs from the claimed slice (the response is still a
200 with `total` 3). -/
theorem listing_slice_semantics_counterexample :
    listingHandler
      (fun k _ => if k == "K" then
        Except.ok (some ⟨some ⟨[⟨"a", AssetType.image⟩, ⟨"b", AssetType.image⟩,
          ⟨"c", AssetType.image⟩]⟩⟩)
      else Except.ok none) "K" (some "-1") (some "1")
      = ListingResult.ok [projAsset "K" ⟨"b", AssetType.image⟩] (-1) 1 3 ∧
    (specSlice [(⟨"a", AssetType.image⟩ : Asset), ⟨"b", AssetType.image⟩,
        ⟨"c", AssetType.image⟩] ((-1 - 1) * 1) ((-1 - 1) * 1 + 1)).map (projAsset "K")
      = [] := by
  exact ⟨by decide, by decide⟩

/-- C4 amended: whenever the computed page and pageSize are at least 1
(which negative query inputs can violate), a successful listing returns
exactly the assets with index in `[(page-1)*pageSize,
(page-1)*pageSize + pageSize)` projected into media items, with `total`
the unsliced asset count, and an out-of-range start yields an empty
`media` array in a 200 response. -/
theorem listing_pagination_amended
    (g : String → Option String → Except Unit (Option Share)) (shareKey : String)
    (pageQ pageSizeQ : Option String) (link : SharedLink)
    (hg : g shareKey (some "") = Except.ok (some ⟨some link⟩))
    (hne : link.assets ≠ [])
    (hp : 1 ≤ pageOf pageQ) (hps : 1 ≤ pageSizeOf pageSizeQ) :
    listingHandler g shareKey pageQ pageSizeQ
      = ListingResult.ok
          ((specSlice link.assets ((pageOf pageQ - 1) * pageSizeOf pageSizeQ)
              ((pageOf pageQ - 1) * pageSizeOf pageSizeQ + pageSizeOf pageSizeQ)).map
            (projAsset shareKey))
          (pageOf pageQ) (pageSizeOf pageSizeQ) link.assets.length ∧
    ((link.assets.length : Int) ≤ (pageOf pageQ - 1) * pageSizeOf pageSizeQ →
      (specSlice link.assets ((pageOf pageQ - 1) * pageSizeOf pageSizeQ)
          ((pageOf pageQ - 1) * pageSizeOf pageSizeQ + pageSizeOf pageSizeQ)).map
        (projAsset shareKey) = []) := by
  have h1 : 0 ≤ (pageOf pageQ - 1) * pageSizeOf pageSizeQ :=
    mul_nonneg (by omega) (by omega)
  have h2 : 0 ≤ (pageOf pageQ - 1) * pageSizeOf pageSizeQ + pageSizeOf pageSizeQ := by
    omega
  have hlen0 : link.assets.length ≠ 0 := by
    simpa [List.length_eq_zero] using hne
  have hlenb : (link.assets.length == 0) = false := beq_eq_false_iff_ne.mpr hlen0
  constructor
  · unfold listingHandler
    rw [hg]
    simp only [Option.bind, hlenb, Bool.false_eq_true, if_false]
    rw [jsSlice_eq_specSlice _ _ _ h1 h2]
  · intro hoor
    unfold specSlice
    rw [List.map_eq_nil_iff]
    apply List.drop_eq_nil_of_le
    have h3 : link.assets.length
        ≤ ((pageOf pageQ - 1) * pageSizeOf pageSizeQ).toNat := by omega
    calc (link.assets.take ((pageOf pageQ - 1) * pageSizeOf pageSizeQ
            + pageSizeOf pageSizeQ).toNat).length
        ≤ link.assets.length := by
          rw [List.length_take]; exact min_le_right _ _
      _ ≤ ((pageOf pageQ - 1) * pageSizeOf pageSizeQ).toNat := h3

/-- C4 amended witness: three assets with `page=2&pageSize=2` return
exactly the third asset and `total` 3. -/
theorem listing_pagination_amended_witness :
    listingHandler
      (fun k _ => if k == "K" then
        Except.ok (some ⟨some ⟨[⟨"a", AssetType.image⟩, ⟨"b", AssetType.image⟩,
          ⟨"c", AssetType.image⟩]⟩⟩)
      else Except.ok none) "K" (some "2") (some "2")
      = ListingResult.ok [projAsset "K" ⟨"c", AssetType.image⟩] 2 2 3 := by
  have h := listing_pagination_amended
    (fun k _ => if k == "K" then
      Except.ok (some ⟨some ⟨[⟨"a", AssetType.image⟩, ⟨"b", AssetType.image⟩,
        ⟨"c", AssetType.image⟩]⟩⟩)
    else Except.ok none)
    "K" (some "2") (some "2")
    ⟨[⟨"a", AssetType.image⟩, ⟨"b", AssetType.image⟩, ⟨"c", AssetType.image⟩]⟩
    (by rfl) (by decide) (by decide) (by decide)
  rw [h.1]
  decide

/-- C5: the listing handler consults the backend only through the
empty-password resolution; when no link with a non-empty asset list is
resolved it answers the 404 error envelope; and every returned media
element is the fixed-base-URL projection of one of the resolved share's
assets. -/
theorem listing_resolves_with_empty_password
    (g : String → Option String → Except Unit (Option Share)) (shareKey : String)
    (pageQ pageSizeQ : Option String) :
    (∀ g', g shareKey (some "") = g' shareKey (some "") →
      listingHandler g shareKey pageQ pageSizeQ
        = listingHandler g' shareKey pageQ pageSizeQ) ∧
    ((¬ ∃ link : SharedLink, g shareKey (some "")
        = Except.ok (some ⟨some link⟩) ∧ link.assets ≠ []) →
      listingHandler g shareKey pageQ pageSizeQ = ListingResult.err404) ∧
    (∀ media page pageSize total,
      listingHandler g shareKey pageQ pageSizeQ
        = ListingResult.ok media page pageSize total →
      ∀ m ∈ media, ∃ link a, g shareKey (some "")
        = Except.ok (some ⟨some link⟩) ∧ a ∈ link.assets ∧
        m = projAsset shareKey a) := by
  refine ⟨?_, ?_, ?_⟩
  · intro g' hgg
    unfold listingHandler
    rw [hgg]
  · intro hno
    unfold listingHandler
    cases hg : g shareKey (some "") with
    | error e => rfl
    | ok share =>
      cases share with
      | none => rfl
      | some sh =>
        cases sh with
        | mk lnk =>
          cases lnk with
          | none => rfl
          | some link =>
            simp only [Option.bind]
            cases hlen : (link.assets.length == 0) with
            | true => simp [hlen]
            | false =>
              exfalso
              exact hno ⟨link, hg, fun hnil => by simp [hnil] at hlen⟩
  · intro media page pageSize total h m hm
    unfold listingHandler at h
    cases hg : g shareKey (some "") with
    | error e => rw [hg] at h; simp at h
    | ok share =>
      rw [hg] at h
      cases share with
      | none => simp at h
      | some sh =>
        cases sh with
        | mk lnk =>
          cases lnk with
          | none => simp at h
          | some link =>
            simp only [Option.bind] at h
            cases hlen : (link.assets.length == 0) with
            | true => simp [hlen] at h
            | false =>
              simp only [hlen, Bool.false_eq_true, if_false,
                ListingResult.ok.injEq] at h
              obtain ⟨hmedia, -, -, -⟩ := h
              rw [← hmedia] at hm
              obtain ⟨a, ha, rfl⟩ := List.mem_map.mp hm
              exact ⟨link, a, rfl, mem_of_mem_jsSlice ha, rfl⟩

/-- C5 witness: a backend that throws on every resolution yields the 404
envelope. -/
theorem listing_resolves_with_empty_password_witness :
    listingHandler (fun _ _ => Except.error ()) "K" none none
      = ListingResult.err404 :=
  (listing_resolves_with_empty_password (fun _ _ => Except.error ())
    "K" none none).2.1
    (by rintro ⟨link, hl, -⟩; exact Except.noConfusion hl)

/-- C10 witness: the syntactically invalid key `"###"` still gets a
credential stored by unlock, while the streaming route rejects it. -/
theorem unlock_skips_key_validation_witness :
    (∃ store', (unlock (some fun _ : String => (none : Option EncryptedPair))
        (some "###") (some "p") (fun _ => ⟨"iv", "cr"⟩) 0).1 = some store' ∧
      store' "###" = some ((fun _ : Credential => (⟨"iv", "cr"⟩ : EncryptedPair))
        (⟨some "p", 0 + 3600⟩ : Credential))) ∧
    (∀ isId sizes g routeType id size pw' range,
      assetHandlerPart000 (fun _ => false) isId sizes g routeType "###" id size
        pw' range = (StreamResult.respond404, false)) :=
  unlock_skips_key_validation (fun _ => none) "###" (some "p")
    (fun _ => ⟨"iv", "cr"⟩) 0 (fun _ => false) (by decide) rfl
